import Mathlib

/-
  Verification development for the Smart Study Table firmware
  (src/smarttablecode.ino). The firmware globals are gathered in a
  Session record; every mutating routine of the sketch is translated
  into a pure function on Session, with each call to millis() passed
  in as an explicit Nat argument (milliseconds, assumed below the
  32-bit wrap of the Arduino clock). Machine integers: unsigned long
  and unsigned int become Nat, long becomes Int (C division on long is
  truncation toward zero, Int.tdiv).
-/

namespace SmartTable

/-- Firmware session states, from the enum at line 56 of the sketch. -/
inductive State where
  | IDLE
  | SET_TIMER
  | WAIT_PHONE
  | COUNTDOWN
  | ABORTED
  deriving DecidableEq

/-- Event emitted by the encoder button classifier on an accepted release. -/
inductive BtnEvent where
  | shortPress
  | longPress
  deriving DecidableEq

/-- The firmware globals that the session logic reads or writes
(lines 44-86 of the sketch). Display and serial peripherals are kept
outside; the RTC is represented only through the rtcOk flag passed to
the serial handler. -/
structure Session where
  state : State
  timerMinutes : Nat
  countdownSeconds : Nat
  countdownRunning : Bool
  countdownEndMillis : Nat
  countdownStartMillis : Nat
  phonePresent : Bool
  ledState : Bool
  buzzerOn : Bool
  lastBuzzerToggle : Nat
  encoderPos : Int
  lastEncoded : Nat
  lastSnap : Int
  lastBtnState : Bool
  btnState : Bool
  lastDebounceBtn : Nat
  btnPressStart : Nat
  deriving DecidableEq

/-- Global initial values of the sketch (state = IDLE, timerMinutes = 25,
button lines pulled HIGH, everything else zero or false). -/
def initialSession : Session :=
  { state := State.IDLE
    timerMinutes := 25
    countdownSeconds := 0
    countdownRunning := false
    countdownEndMillis := 0
    countdownStartMillis := 0
    phonePresent := false
    ledState := false
    buzzerOn := false
    lastBuzzerToggle := 0
    encoderPos := 0
    lastEncoded := 0
    lastSnap := 0
    lastBtnState := true
    btnState := true
    lastDebounceBtn := 0
    btnPressStart := 0 }

/-- setRelay (lines 289-292): drives the relay pin and records ledState. -/
def setRelay (b : Bool) (s : Session) : Session :=
  { s with ledState := b }

/-- stopBuzzer (lines 320-327): silences the buzzer pin, buzzerOn = false. -/
def stopBuzzer (s : Session) : Session :=
  { s with buzzerOn := false }

/-- rapidBuzzer (lines 306-318): toggles the buzzer if more than
BUZZER_TOGGLE_MS = 220 ms have passed since the last toggle. -/
def rapidBuzzer (now : Nat) (s : Session) : Session :=
  if now - s.lastBuzzerToggle > 220 then
    { s with lastBuzzerToggle := now, buzzerOn := !s.buzzerOn }
  else s

/-- The clamp applied to a minute count derived from the encoder
(lines 184-186 and 248-249): below 1 becomes 1, above 600 becomes 600. -/
def clampMins (m : Int) : Int :=
  if m < 1 then 1 else if m > 600 then 600 else m

/-- startCountdown (lines 295-303): countdownRunning = true, the end
timestamp is set to now + timerMinutes minutes in ms, countdownSeconds
is seeded, and the relay is switched on. -/
def startCountdown (now : Nat) (s : Session) : Session :=
  let s1 := { s with
    countdownRunning := true
    countdownEndMillis := now + s.timerMinutes * 60 * 1000
    countdownSeconds := s.timerMinutes * 60
    countdownStartMillis := now }
  setRelay true s1

/-- onEncoderShortPress (lines 242-264): the state-machine transition on
an accepted short press. -/
def onEncoderShortPress (s : Session) : Session :=
  match s.state with
  | State.IDLE =>
      { s with state := State.SET_TIMER,
               encoderPos := (s.timerMinutes : Int) * 4 }
  | State.SET_TIMER =>
      { s with timerMinutes := (clampMins ((s.encoderPos).tdiv 4)).toNat,
               state := State.WAIT_PHONE }
  | State.WAIT_PHONE =>
      { s with state := State.IDLE }
  | State.COUNTDOWN =>
      { s with countdownRunning := false, buzzerOn := false,
               ledState := false, state := State.IDLE }
  | State.ABORTED =>
      { s with state := State.IDLE }

/-- Membership tests for the quadrature transition table
(line 203): codes that increment encoderPos. -/
def isIncCode (c : Nat) : Bool :=
  c == 1 || c == 7 || c == 14 || c == 8

/-- Codes that decrement encoderPos (line 204). -/
def isDecCode (c : Nat) : Bool :=
  c == 2 || c == 11 || c == 13 || c == 4

/-- updateEncoder (lines 198-206), the interrupt handler: reads the two
phase lines a (MSB) and b (LSB), forms the 4-bit transition code from
the previous 2-bit code, and applies the two table tests in sequence. -/
def updateEncoder (a b : Bool) (s : Session) : Session :=
  let encoded := (cond a 2 0) + (cond b 1 0)
  let sum := s.lastEncoded * 4 + encoded
  let p1 := if isIncCode sum then s.encoderPos + 1 else s.encoderPos
  let p2 := if isDecCode sum then p1 - 1 else p1
  { s with encoderPos := p2, lastEncoded := encoded }

/-- readEncoderButton (lines 209-240): debounced classifier over the raw
button level (true = HIGH = released, false = LOW = pressed). Returns
the updated session and the event emitted this sample, if any. The RTC
action of a long press and the call into onEncoderShortPress are applied
by buttonStep below. debounceDelay = 50 ms, LONG_PRESS_MS = 2000 ms. -/
def readEncoderButton (reading : Bool) (t : Nat) (s : Session) :
    Session × Option BtnEvent :=
  let s0 := if reading ≠ s.lastBtnState then { s with lastDebounceBtn := t } else s
  if t - s0.lastDebounceBtn > 50 then
    if reading ≠ s0.btnState then
      if reading = false then
        ({ s0 with btnState := reading, btnPressStart := t,
                   lastBtnState := reading }, none)
      else
        ({ s0 with btnState := reading, lastBtnState := reading },
          some (if t - s0.btnPressStart ≥ 2000 then BtnEvent.longPress
                else BtnEvent.shortPress))
    else ({ s0 with lastBtnState := reading }, none)
  else ({ s0 with lastBtnState := reading }, none)

/-- One button sample of the main loop: classify, then dispatch. A long
press only touches the RTC peripheral (lines 222-231), so the session is
unchanged; a short press runs onEncoderShortPress (line 234). -/
def buttonStep (reading : Bool) (t : Nat) (s : Session) : Session :=
  match readEncoderButton reading t s with
  | (s1, some BtnEvent.shortPress) => onEncoderShortPress s1
  | (s1, _) => s1

/-- handleStudentPresence (lines 280-286): presence forces the LED on;
absence turns it off only outside COUNTDOWN. -/
def handleStudentPresence (present : Bool) (s : Session) : Session :=
  if present = true then
    if s.ledState = false then setRelay true s else s
  else
    if s.state ≠ State.COUNTDOWN ∧ s.ledState = true then setRelay false s
    else s

/-- The ultrasonic poll body (lines 135-140): the distance reading is
turned into the presence boolean with threshold 100 cm (a no-echo
sentinel is the negative value -1) and handed to handleStudentPresence. -/
def presenceTick (distance : Int) (s : Session) : Session :=
  handleStudentPresence (decide (0 < distance ∧ distance ≤ 100)) s

/-- The phone poll body (lines 143-156): only in WAIT_PHONE or COUNTDOWN;
stores the fresh IR sample in phonePresent, and if waiting with the phone
placed and no countdown running, starts the countdown and enters
COUNTDOWN. -/
def phonePollTick (now : Nat) (irDetected : Bool) (s : Session) : Session :=
  if s.state = State.WAIT_PHONE ∨ s.state = State.COUNTDOWN then
    let s1 := { s with phonePresent := irDetected }
    if s1.state = State.WAIT_PHONE ∧ s1.phonePresent = true ∧
        s1.countdownRunning = false then
      let s2 := startCountdown now s1
      { s2 with countdownSeconds := s2.timerMinutes * 60,
                state := State.COUNTDOWN }
    else s1
  else s

/-- The countdown section of loop (lines 159-175): when the deadline has
passed, finish (seconds 0, running false, relay off, back to IDLE,
buzzer off); otherwise recompute the remaining seconds from the end
timestamp. Afterwards the buzzer follows phonePresent. -/
def countdownTick (now : Nat) (s : Session) : Session :=
  if s.state = State.COUNTDOWN ∧ s.countdownRunning = true then
    let s1 :=
      if now ≥ s.countdownEndMillis then
        { s with countdownSeconds := 0, countdownRunning := false,
                 ledState := false, state := State.IDLE, buzzerOn := false }
      else
        { s with countdownSeconds := (s.countdownEndMillis - now) / 1000 }
    if s1.phonePresent = false then rapidBuzzer now s1 else stopBuzzer s1
  else s

/-- The SET_TIMER section of loop (lines 177-188): when the snapped
encoder position moved since the last snap, recompute timerMinutes as
the clamped quotient by 4 (4 quadrature steps per minute). -/
def setTimerTick (s : Session) : Session :=
  if s.state = State.SET_TIMER then
    if s.encoderPos ≠ s.lastSnap then
      { s with lastSnap := s.encoderPos,
               timerMinutes := (clampMins ((s.encoderPos).tdiv 4)).toNat }
    else s
  else s

/-- Deadline arithmetic of startCountdown (lines 298-299): the absolute
end timestamp for a countdown started at startMs. -/
def countdownEndOf (startMs minutes : Nat) : Nat :=
  startMs + minutes * 60 * 1000

/-- The elapsed test of the countdown section (line 160). -/
def is_elapsed (endMillis now : Nat) : Bool :=
  decide (now ≥ endMillis)

/-- The remaining milliseconds computed by the countdown section: 0 in
the finished branch, endMillis - now otherwise (lines 161-170). -/
def remainingMs (endMillis now : Nat) : Nat :=
  if now ≥ endMillis then 0 else endMillis - now

/-- Result of one parsed serial command (lines 420-478); the RTC
peripheral is only reached through the rtcAdjust constructors. -/
inductive SerialAction where
  | usageError
  | invalidDateTime
  | rtcUnavailable
  | rtcAdjustCompileTime
  | rtcAdjust (year month day hour minute second : Int)
  | readOut
  | unknownCommand
  deriving DecidableEq

/-- The range validation of the SET branch (lines 450-452). -/
def validSet (year month day hour minute second : Int) : Bool :=
  !(year < 2000 || month < 1 || month > 12 || day < 1 || day > 31) &&
  !(hour < 0 || hour > 23 || minute < 0 || minute > 59 ||
    second < 0 || second > 59)

/-- The SET branch (lines 440-464): fewer than six arguments is a usage
error; out-of-range arguments are rejected before the rtcOk test and
before any rtcAdjust. -/
def processSet (rtcOk : Bool) (args : List Int) : SerialAction :=
  match args with
  | year :: month :: day :: hour :: minute :: second :: _ =>
      if validSet year month day hour minute second = false then
        SerialAction.invalidDateTime
      else if rtcOk = false then SerialAction.rtcUnavailable
      else SerialAction.rtcAdjust year month day hour minute second
  | _ => SerialAction.usageError

/-- processSerialCommand (lines 420-478): dispatch on the upcased first
token. The routine writes none of the session globals, so the session
component of the result is the input session unchanged. -/
def processSerialCommand (rtcOk : Bool) (cmd : String) (args : List Int)
    (s : Session) : Session × SerialAction :=
  (s,
    if cmd = "SETNOW" then
      if rtcOk = false then SerialAction.rtcUnavailable
      else SerialAction.rtcAdjustCompileTime
    else if cmd = "SET" then processSet rtcOk args
    else if cmd = "READ" then
      if rtcOk = false then SerialAction.rtcUnavailable
      else SerialAction.readOut
    else SerialAction.unknownCommand)

/-- The gating pattern of the cooperative loop (lines 135, 144, 191): a
task body runs, and its last-run stamp advances, only when at least its
interval has elapsed; otherwise the iteration leaves both untouched. -/
def gatedRun (now last interval : Nat) (body : Session → Session)
    (s : Session) : Nat × Session :=
  if now - last ≥ interval then (now, body s) else (last, s)

/-- The operations performed by the main loop and the interrupt. -/
inductive LoopOp where
  | handleSerial
  | readBtn
  | presencePollOp
  | phonePollOp
  | displayRefresh
  | showMsg
  | readUltra
  | isrOp
  deriving DecidableEq

/-- Milliseconds spent in delay() calls by each operation: showMessage
(lines 330-337) ends with delay(900); no other routine calls delay. -/
def delayMsOf : LoopOp → Nat
  | LoopOp.showMsg => 900
  | _ => 0

/-- Worst-case busy-wait in microseconds: readUltrasonic (lines 267-277)
spends delayMicroseconds(2) + delayMicroseconds(10) and up to the
30000 us pulseIn timeout; no other routine busy-waits. -/
def busyWaitMaxMicros : LoopOp → Nat
  | LoopOp.readUltra => 30012
  | _ => 0

/-- The input alphabet of the session machine: one constructor per
mutating section of the loop, plus the interrupt and serial commands.
Times are the millis() values observed by that section. -/
inductive Input where
  | btn (reading : Bool) (t : Nat)
  | isr (a b : Bool)
  | presencePoll (distance : Int)
  | phonePoll (now : Nat) (irDetected : Bool)
  | countdownStep (now : Nat)
  | setTimerPoll
  | serialCmd (rtcOk : Bool) (cmd : String) (args : List Int)

/-- One atomic mutating operation applied to the session. -/
def step (i : Input) (s : Session) : Session :=
  match i with
  | Input.btn r t => buttonStep r t s
  | Input.isr a b => updateEncoder a b s
  | Input.presencePoll d => presenceTick d s
  | Input.phonePoll now ir => phonePollTick now ir s
  | Input.countdownStep now => countdownTick now s
  | Input.setTimerPoll => setTimerTick s
  | Input.serialCmd rtcOk cmd args => (processSerialCommand rtcOk cmd args s).1

/-- The session reached from power-on after a sequence of inputs. -/
def runInputs (inputs : List Input) : Session :=
  inputs.foldl (fun s i => step i s) initialSession

/-- Fold of the interrupt handler over a list of sampled phase pairs. -/
def encoderRun (s : Session) : List (Bool × Bool) → Session
  | [] => s
  | (a, b) :: rest => encoderRun (updateEncoder a b s) rest

/-- The 4-bit transition codes generated while folding updateEncoder
over a list of phase samples, starting from a previous 2-bit code. -/
def encoderCodes (last : Nat) : List (Bool × Bool) → List Nat
  | [] => []
  | (a, b) :: rest =>
      let encoded := (cond a 2 0) + (cond b 1 0)
      (last * 4 + encoded) :: encoderCodes encoded rest

/-- Fold of the button classifier over a list of (raw level, time)
samples, collecting the emitted events in order. -/
def btnRun (s : Session) : List (Bool × Nat) → Session × List BtnEvent
  | [] => (s, [])
  | (r, t) :: rest =>
      let p := readEncoderButton r t s
      let q := btnRun p.1 rest
      (q.1, p.2.toList ++ q.2)

/-- A sample sequence is bouncy for the classifier when, at every sample
whose level disagrees with the accepted level, no more than the 50 ms
debounce window has passed since the last raw level change. -/
def allBouncy (s : Session) : List (Bool × Nat) → Bool
  | [] => true
  | (r, t) :: rest =>
      let d := if r ≠ s.lastBtnState then t else s.lastDebounceBtn
      (decide (t - d ≤ 50) || decide (r = s.btnState)) &&
        allBouncy (readEncoderButton r t s).1 rest

/-- The session invariant maintained by every operation: timerMinutes
stays in [1, 600], a running countdown exists only in COUNTDOWN, and
ABORTED is never entered. -/
def Inv (s : Session) : Prop :=
  (1 ≤ s.timerMinutes ∧ s.timerMinutes ≤ 600)
  ∧ (s.countdownRunning = true → s.state = State.COUNTDOWN)
  ∧ s.state ≠ State.ABORTED

lemma clampMins_bounds (m : Int) : 1 ≤ clampMins m ∧ clampMins m ≤ 600 := by
  unfold clampMins
  split
  · omega
  · split <;> omega

lemma clampMins_toNat_bounds (m : Int) :
    1 ≤ (clampMins m).toNat ∧ (clampMins m).toNat ≤ 600 := by
  have h := clampMins_bounds m
  omega

lemma readEncoderButton_core (r : Bool) (t : Nat) (s : Session) :
    (readEncoderButton r t s).1.state = s.state
    ∧ (readEncoderButton r t s).1.timerMinutes = s.timerMinutes
    ∧ (readEncoderButton r t s).1.countdownRunning = s.countdownRunning
    ∧ (readEncoderButton r t s).1.encoderPos = s.encoderPos := by
  refine ⟨?_, ?_, ?_, ?_⟩ <;>
    (simp only [readEncoderButton]; repeat' split) <;> rfl

lemma inv_shortPress (s : Session) (h : Inv s) : Inv (onEncoderShortPress s) := by
  obtain ⟨htm, hrun, hab⟩ := h
  unfold onEncoderShortPress Inv
  cases hs : s.state
  case IDLE =>
    have hrf : s.countdownRunning = false := by
      rcases Bool.eq_false_or_eq_true s.countdownRunning with hb | hb
      · rw [hrun hb] at hs; cases hs
      · exact hb
    exact ⟨htm, by simp [hrf], by simp⟩
  case SET_TIMER =>
    have hrf : s.countdownRunning = false := by
      rcases Bool.eq_false_or_eq_true s.countdownRunning with hb | hb
      · rw [hrun hb] at hs; cases hs
      · exact hb
    exact ⟨clampMins_toNat_bounds _, by simp [hrf], by simp⟩
  case WAIT_PHONE =>
    have hrf : s.countdownRunning = false := by
      rcases Bool.eq_false_or_eq_true s.countdownRunning with hb | hb
      · rw [hrun hb] at hs; cases hs
      · exact hb
    exact ⟨htm, by simp [hrf], by simp⟩
  case COUNTDOWN =>
    exact ⟨htm, by simp, by simp⟩
  case ABORTED =>
    have hrf : s.countdownRunning = false := by
      rcases Bool.eq_false_or_eq_true s.countdownRunning with hb | hb
      · rw [hrun hb] at hs; cases hs
      · exact hb
    exact ⟨htm, by simp [hrf], by simp⟩

lemma inv_buttonStep (r : Bool) (t : Nat) (s : Session) (h : Inv s) :
    Inv (buttonStep r t s) := by
  have hc := readEncoderButton_core r t s
  have h1 : Inv (readEncoderButton r t s).1 := by
    unfold Inv at *
    rw [hc.1, hc.2.1, hc.2.2.1]
    exact h
  unfold buttonStep
  rcases hev : (readEncoderButton r t s) with ⟨s1, ev⟩
  rw [hev] at h1
  match ev with
  | none => exact h1
  | some BtnEvent.longPress => exact h1
  | some BtnEvent.shortPress => exact inv_shortPress s1 h1

lemma inv_updateEncoder (a b : Bool) (s : Session) (h : Inv s) :
    Inv (updateEncoder a b s) := by
  obtain ⟨htm, hrun, hab⟩ := h
  unfold updateEncoder Inv
  exact ⟨htm, hrun, hab⟩

lemma inv_presence (present : Bool) (s : Session) (h : Inv s) :
    Inv (handleStudentPresence present s) := by
  obtain ⟨htm, hrun, hab⟩ := h
  unfold handleStudentPresence setRelay Inv
  repeat' split
  all_goals exact ⟨htm, hrun, hab⟩

lemma inv_phonePoll (now : Nat) (ir : Bool) (s : Session) (h : Inv s) :
    Inv (phonePollTick now ir s) := by
  obtain ⟨htm, hrun, hab⟩ := h
  simp only [phonePollTick, startCountdown, setRelay]
  repeat' split
  all_goals first
    | exact ⟨htm, hrun, hab⟩
    | exact ⟨htm, fun _ => rfl, by simp⟩

lemma inv_countdownTick (now : Nat) (s : Session) (h : Inv s) :
    Inv (countdownTick now s) := by
  obtain ⟨htm, hrun, hab⟩ := h
  simp only [countdownTick, rapidBuzzer, stopBuzzer]
  repeat' split
  all_goals first
    | exact ⟨htm, hrun, hab⟩
    | exact ⟨htm, by simp, by simp⟩

lemma inv_setTimerTick (s : Session) (h : Inv s) : Inv (setTimerTick s) := by
  obtain ⟨htm, hrun, hab⟩ := h
  simp only [setTimerTick]
  repeat' split
  all_goals first
    | exact ⟨htm, hrun, hab⟩
    | exact ⟨clampMins_toNat_bounds _, hrun, hab⟩

lemma inv_step (i : Input) (s : Session) (h : Inv s) : Inv (step i s) := by
  cases i with
  | btn r t => exact inv_buttonStep r t s h
  | isr a b => exact inv_updateEncoder a b s h
  | presencePoll d => exact inv_presence _ s h
  | phonePoll now ir => exact inv_phonePoll now ir s h
  | countdownStep now => exact inv_countdownTick now s h
  | setTimerPoll => exact inv_setTimerTick s h
  | serialCmd rtcOk cmd args => exact h

lemma inv_foldl (inputs : List Input) :
    ∀ s : Session, Inv s → Inv (inputs.foldl (fun s i => step i s) s) := by
  induction inputs with
  | nil => intro s h; exact h
  | cons i rest ih => intro s h; exact ih _ (inv_step i s h)

lemma inv_initial : Inv initialSession := by
  unfold Inv initialSession
  refine ⟨by decide, by decide, by decide⟩

lemma inv_run (inputs : List Input) : Inv (runInputs inputs) :=
  inv_foldl inputs initialSession inv_initial

lemma updateEncoder_char (a b : Bool) (s : Session) :
    (updateEncoder a b s).lastEncoded = (cond a 2 0) + (cond b 1 0)
    ∧ (updateEncoder a b s).encoderPos =
        s.encoderPos
        + (if isIncCode (s.lastEncoded * 4 + ((cond a 2 0) + (cond b 1 0)))
            then 1 else 0)
        - (if isDecCode (s.lastEncoded * 4 + ((cond a 2 0) + (cond b 1 0)))
            then 1 else 0) := by
  constructor
  · rfl
  · simp only [updateEncoder]
    split <;> split <;> omega

lemma encoderRun_pos (samples : List (Bool × Bool)) :
    ∀ s : Session, (encoderRun s samples).encoderPos =
      s.encoderPos
      + ((encoderCodes s.lastEncoded samples).countP (fun c => isIncCode c) : Int)
      - ((encoderCodes s.lastEncoded samples).countP (fun c => isDecCode c) : Int) := by
  induction samples with
  | nil => intro s; simp [encoderRun, encoderCodes]
  | cons p rest ih =>
    intro s
    rcases p with ⟨a, b⟩
    have hchar := updateEncoder_char a b s
    simp only [encoderRun, encoderCodes]
    rw [ih (updateEncoder a b s), hchar.1, hchar.2]
    simp only [List.countP_cons]
    push_cast
    split_ifs <;> omega

lemma readBtn_noEvent (r : Bool) (t : Nat) (s : Session)
    (h : t - (if r ≠ s.lastBtnState then t else s.lastDebounceBtn) ≤ 50
          ∨ r = s.btnState) :
    (readEncoderButton r t s).2 = none
    ∧ (readEncoderButton r t s).1.btnState = s.btnState := by
  by_cases h1 : r ≠ s.lastBtnState
  · simp [readEncoderButton, h1]
  · rcases h with h2 | h2
    · simp only [if_neg h1] at h2
      have h3 : ¬ (t - s.lastDebounceBtn > 50) := by omega
      simp [readEncoderButton, h1, h3]
    · by_cases h3 : t - s.lastDebounceBtn > 50
      · have h1a : r = s.lastBtnState := not_not.mp h1
        subst h2
        simp [readEncoderButton, h1a, h3]
      · simp [readEncoderButton, h1, h3]

lemma btnRun_bouncy (samples : List (Bool × Nat)) :
    ∀ s : Session, allBouncy s samples = true →
      (btnRun s samples).2 = [] ∧ (btnRun s samples).1.btnState = s.btnState := by
  induction samples with
  | nil => intro s _; exact ⟨rfl, rfl⟩
  | cons p rest ih =>
    intro s h
    rcases p with ⟨r, t⟩
    simp only [allBouncy, Bool.and_eq_true, Bool.or_eq_true,
      decide_eq_true_eq] at h
    obtain ⟨h1, h2⟩ := h
    have hstep := readBtn_noEvent r t s h1
    have hrec := ih (readEncoderButton r t s).1 h2
    simp only [btnRun]
    refine ⟨?_, ?_⟩
    · rw [hstep.1, hrec.1]; rfl
    · rw [hrec.2, hstep.2]

lemma rapidBuzzer_countdownSeconds (now : Nat) (s : Session) :
    (rapidBuzzer now s).countdownSeconds = s.countdownSeconds := by
  unfold rapidBuzzer; split <;> rfl

/-- Claim C1: for a countdown started at startMs, the deadline is
startMs + timer_minutes*60*1000 ms; is_elapsed is false strictly before
the deadline and true from it on; the remaining time equals
max(0, end_time - now), is never negative, and is non-increasing as now
increases across calls; startCountdown installs exactly this deadline
and the countdown section of loop stores remaining/1000 in
countdownSeconds each tick. -/
theorem C1_countdown_engine (s : Session) (startMs minutes now nowB : Nat)
    (hmono : now ≤ nowB) (hst : s.state = State.COUNTDOWN)
    (hrun : s.countdownRunning = true) :
    (now < countdownEndOf startMs minutes →
      is_elapsed (countdownEndOf startMs minutes) now = false)
    ∧ (countdownEndOf startMs minutes ≤ now →
      is_elapsed (countdownEndOf startMs minutes) now = true)
    ∧ ((remainingMs (countdownEndOf startMs minutes) now : Int)
        = max 0 ((countdownEndOf startMs minutes : Int) - (now : Int)))
    ∧ (0 : Int) ≤ (remainingMs (countdownEndOf startMs minutes) now : Int)
    ∧ remainingMs (countdownEndOf startMs minutes) nowB
        ≤ remainingMs (countdownEndOf startMs minutes) now
    ∧ (startCountdown now s).countdownEndMillis
        = countdownEndOf now s.timerMinutes
    ∧ (countdownTick now s).countdownSeconds
        = remainingMs s.countdownEndMillis now / 1000 := by
  refine ⟨?_, ?_, ?_, ?_, ?_, rfl, ?_⟩
  · intro h; simp [is_elapsed]; omega
  · intro h; simp [is_elapsed]; omega
  · unfold remainingMs
    split
    · rw [max_eq_left (by omega)]; simp
    · rw [max_eq_right (by omega)]; omega
  · omega
  · unfold remainingMs; split <;> split <;> omega
  · simp only [countdownTick]
    rw [if_pos ⟨hst, hrun⟩]
    by_cases hd : now ≥ s.countdownEndMillis
    · rw [if_pos hd]
      split
      · rw [rapidBuzzer_countdownSeconds]
        simp [remainingMs, hd]
      · simp [stopBuzzer, remainingMs, hd]
    · rw [if_neg hd]
      split
      · rw [rapidBuzzer_countdownSeconds]
        simp [remainingMs, hd]
      · simp [stopBuzzer, remainingMs, hd]

/-- Witness for C1 at a concrete countdown session and concrete times. -/
theorem C1_countdown_engine_witness :
    100 ≤ 200
    ∧ ({ initialSession with state := State.COUNTDOWN, countdownRunning := true, countdownEndMillis := 5000 } : Session).state
        = State.COUNTDOWN
    ∧ ({ initialSession with state := State.COUNTDOWN, countdownRunning := true, countdownEndMillis := 5000 } : Session).countdownRunning
        = true
    ∧ (countdownTick 100
        { initialSession with state := State.COUNTDOWN, countdownRunning := true, countdownEndMillis := 5000 }).countdownSeconds
        = remainingMs 5000 100 / 1000
    ∧ remainingMs (countdownEndOf 0 1) 200 ≤ remainingMs (countdownEndOf 0 1) 100 := by
  have h := C1_countdown_engine
    { initialSession with state := State.COUNTDOWN, countdownRunning := true, countdownEndMillis := 5000 }
    0 1 100 200 (by decide) rfl rfl
  exact ⟨by decide, rfl, rfl, h.2.2.2.2.2.2, h.2.2.2.2.1⟩

/-- Claim C2: over every input sequence from power-on, timerMinutes stays
in [1, 600]; the clamp applied to any encoder-derived minute value lands
in [1, 600] as well, so encoder overshoot in either direction never
produces an invalid setting. -/
theorem C2_timer_minutes_range (inputs : List Input) (m : Int) :
    (1 ≤ (runInputs inputs).timerMinutes
      ∧ (runInputs inputs).timerMinutes ≤ 600)
    ∧ (1 ≤ (clampMins m).toNat ∧ (clampMins m).toNat ≤ 600) :=
  ⟨(inv_run inputs).1, clampMins_toNat_bounds m⟩

/-- Claim C3: one interrupt step moves encoderPos by +1 exactly on the
codes 0001, 0111, 1110, 1000, by -1 exactly on 0010, 1011, 1101, 0100,
and not at all otherwise; folding the handler over any sample sequence
yields initial position plus increments minus decrements of the
generated transition codes. -/
theorem C3_encoder_table (a b : Bool) (s : Session)
    (samples : List (Bool × Bool)) :
    ((updateEncoder a b s).encoderPos =
      s.encoderPos
      + (if isIncCode (s.lastEncoded * 4 + ((cond a 2 0) + (cond b 1 0)))
          then 1 else 0)
      - (if isDecCode (s.lastEncoded * 4 + ((cond a 2 0) + (cond b 1 0)))
          then 1 else 0))
    ∧ (encoderRun s samples).encoderPos =
        s.encoderPos
        + ((encoderCodes s.lastEncoded samples).countP
            (fun c => isIncCode c) : Int)
        - ((encoderCodes s.lastEncoded samples).countP
            (fun c => isDecCode c) : Int) :=
  ⟨(updateEncoder_char a b s).2, encoderRun_pos samples s⟩

/-- Claim C4: a sample sequence whose level is never stable against the
accepted level for more than the 50 ms debounce window emits zero events
and leaves the accepted level unchanged; a clean press/release cycle
(press accepted after more than 50 ms of stability, release likewise)
emits exactly one event, LongPress when the accepted press duration is
at least 2000 ms and ShortPress otherwise. -/
theorem C4_button_classifier (s1 s2 : Session) (samples : List (Bool × Nat))
    (t0 t1 t2 t3 : Nat)
    (hb : allBouncy s1 samples = true)
    (h0 : s2.btnState = true) (h1 : s2.lastBtnState = true)
    (hd0 : t1 - t0 > 50) (hd1 : t3 - t2 > 50) :
    ((btnRun s1 samples).2 = []
      ∧ (btnRun s1 samples).1.btnState = s1.btnState)
    ∧ (btnRun s2 [(false, t0), (false, t1), (true, t2), (true, t3)]).2
        = [if t3 - t1 ≥ 2000 then BtnEvent.longPress else BtnEvent.shortPress] := by
  refine ⟨btnRun_bouncy samples s1 hb, ?_⟩
  simp [btnRun, readEncoderButton, h0, h1, hd0, hd1]

/-- Witness for C4: a 4-sample bounce train emits nothing; a clean cycle
with 200 ms accepted duration emits exactly one ShortPress. -/
theorem C4_button_classifier_witness :
    allBouncy initialSession [(false, 10), (true, 30), (false, 45), (true, 60)]
        = true
    ∧ initialSession.btnState = true
    ∧ initialSession.lastBtnState = true
    ∧ 200 - 100 > 50
    ∧ 400 - 300 > 50
    ∧ (btnRun initialSession
        [(false, 10), (true, 30), (false, 45), (true, 60)]).2 = []
    ∧ (btnRun initialSession
        [(false, 100), (false, 200), (true, 300), (true, 400)]).2
        = [if 400 - 200 ≥ 2000 then BtnEvent.longPress else BtnEvent.shortPress] := by
  have h := C4_button_classifier initialSession initialSession
    [(false, 10), (true, 30), (false, 45), (true, 60)] 100 200 300 400
    (by decide) rfl rfl (by decide) (by decide)
  exact ⟨by decide, rfl, rfl, by decide, by decide, h.1.1, h.2⟩

/-- Claim C5: on a presence-poll tick, presence = true requests the LED
on; presence = false requests it off when the state is not COUNTDOWN and
leaves it unchanged when the state is COUNTDOWN. -/
theorem C5_presence_led_rule (s1 s2 : Session)
    (h1 : s1.state ≠ State.COUNTDOWN) (h2 : s2.state = State.COUNTDOWN) :
    (handleStudentPresence true s1).ledState = true
    ∧ (handleStudentPresence true s2).ledState = true
    ∧ (handleStudentPresence false s1).ledState = false
    ∧ (handleStudentPresence false s2).ledState = s2.ledState := by
  refine ⟨?_, ?_, ?_, ?_⟩
  · cases hb : s1.ledState <;> simp [handleStudentPresence, setRelay, hb]
  · cases hb : s2.ledState <;> simp [handleStudentPresence, setRelay, hb]
  · cases hb : s1.ledState <;> simp [handleStudentPresence, setRelay, hb, h1]
  · simp [handleStudentPresence, setRelay, h2]

/-- Witness for C5: the same absent reading turns the LED off in IDLE
and leaves it on in COUNTDOWN. -/
theorem C5_presence_led_rule_witness :
    initialSession.state ≠ State.COUNTDOWN
    ∧ ({ initialSession with state := State.COUNTDOWN, ledState := true } : Session).state = State.COUNTDOWN
    ∧ (handleStudentPresence true initialSession).ledState = true
    ∧ (handleStudentPresence false initialSession).ledState = false
    ∧ (handleStudentPresence false
        { initialSession with state := State.COUNTDOWN, ledState := true }).ledState
        = ({ initialSession with state := State.COUNTDOWN, ledState := true } : Session).ledState := by
  have h := C5_presence_led_rule initialSession
    { initialSession with state := State.COUNTDOWN, ledState := true }
    (by decide) rfl
  exact ⟨by decide, rfl, h.1, h.2.2.1, h.2.2.2⟩

/-- Counterexample to claim C6: the ShortPress commit from SET_TIMER
re-enters WAIT_PHONE with a stale phonePresent = true still set, so the
transition does not clear the stale reading. -/
theorem C6_waitphone_counterexample :
    ({ initialSession with state := State.SET_TIMER, phonePresent := true } : Session).state = State.SET_TIMER
    ∧ (onEncoderShortPress
        { initialSession with state := State.SET_TIMER, phonePresent := true }).state = State.WAIT_PHONE
    ∧ (onEncoderShortPress
        { initialSession with state := State.SET_TIMER, phonePresent := true }).phonePresent = true :=
  ⟨rfl, rfl, rfl⟩

/-- Claim C6 as amended: the ShortPress commit from SET_TIMER re-enters
WAIT_PHONE leaving phonePresent unchanged (a stale reading persists);
the next phone-poll tick overwrites phonePresent with the fresh sample,
which is also the only point where a countdown start is decided. -/
theorem C6_waitphone_stale_phone (s s2 : Session) (now : Nat) (ir : Bool)
    (h : s.state = State.SET_TIMER) (h2 : s2.state = State.WAIT_PHONE) :
    (onEncoderShortPress s).state = State.WAIT_PHONE
    ∧ (onEncoderShortPress s).phonePresent = s.phonePresent
    ∧ (phonePollTick now ir s2).phonePresent = ir := by
  refine ⟨?_, ?_, ?_⟩
  · simp [onEncoderShortPress, h]
  · simp [onEncoderShortPress, h]
  · simp only [phonePollTick]
    rw [if_pos (Or.inl h2)]
    split
    · rfl
    · rfl

/-- Witness for the amended C6. -/
theorem C6_waitphone_stale_phone_witness :
    ({ initialSession with state := State.SET_TIMER, phonePresent := true } : Session).state = State.SET_TIMER
    ∧ ({ initialSession with state := State.WAIT_PHONE, phonePresent := true } : Session).state = State.WAIT_PHONE
    ∧ (onEncoderShortPress
        { initialSession with state := State.SET_TIMER, phonePresent := true }).phonePresent
        = ({ initialSession with state := State.SET_TIMER, phonePresent := true } : Session).phonePresent
    ∧ (phonePollTick 0 false
        { initialSession with state := State.WAIT_PHONE, phonePresent := true }).phonePresent = false := by
  have h := C6_waitphone_stale_phone
    { initialSession with state := State.SET_TIMER, phonePresent := true }
    { initialSession with state := State.WAIT_PHONE, phonePresent := true }
    0 false rfl rfl
  exact ⟨rfl, rfl, h.2.1, h.2.2⟩

/-- Claim C7: in every reachable session a running countdown implies the
state is COUNTDOWN, and any single operation whose result leaves
COUNTDOWN also leaves countdownRunning = false. -/
theorem C7_countdown_running_invariant (inputs : List Input) (i : Input) :
    ((runInputs inputs).countdownRunning = true →
      (runInputs inputs).state = State.COUNTDOWN)
    ∧ ((step i (runInputs inputs)).state ≠ State.COUNTDOWN →
      (step i (runInputs inputs)).countdownRunning = false) := by
  have h := inv_run inputs
  have h2 := inv_step i (runInputs inputs) h
  refine ⟨h.2.1, ?_⟩
  intro hne
  rcases Bool.eq_false_or_eq_true (step i (runInputs inputs)).countdownRunning
    with hb | hb
  · exact absurd (h2.2.1 hb) hne
  · exact hb

/-- Witness for C7 on a concrete run. -/
theorem C7_countdown_running_invariant_witness :
    ((runInputs []).countdownRunning = true →
      (runInputs []).state = State.COUNTDOWN)
    ∧ ((step Input.setTimerPoll (runInputs [])).state ≠ State.COUNTDOWN →
      (step Input.setTimerPoll (runInputs [])).countdownRunning = false) :=
  C7_countdown_running_invariant [] Input.setTimerPoll

/-- Counterexample to claim C8: showMessage is a main-loop operation
distinct from the interrupt handler and it sleeps 900 ms in delay();
readUltrasonic likewise busy-waits. -/
theorem C8_blocking_counterexample :
    LoopOp.showMsg ≠ LoopOp.isrOp
    ∧ delayMsOf LoopOp.showMsg = 900
    ∧ ¬ delayMsOf LoopOp.showMsg = 0
    ∧ LoopOp.readUltra ≠ LoopOp.isrOp
    ∧ ¬ busyWaitMaxMicros LoopOp.readUltra = 0 :=
  ⟨by decide, rfl, by decide, by decide, by decide⟩

/-- Claim C8 as amended: each gated task is skipped entirely when its
interval has not elapsed, but not every non-interrupt operation is free
of blocking: showMessage sleeps 900 ms in delay() and readUltrasonic
busy-waits up to 30012 microseconds in pulseIn and delayMicroseconds;
every other operation performs no delay and no busy-wait. -/
theorem C8_gating_and_blocking (now last interval : Nat)
    (body : Session → Session) (s : Session) (h : now - last < interval) :
    gatedRun now last interval body s = (last, s)
    ∧ delayMsOf LoopOp.showMsg = 900
    ∧ busyWaitMaxMicros LoopOp.readUltra = 30012
    ∧ (∀ op : LoopOp, op ≠ LoopOp.showMsg → op ≠ LoopOp.readUltra →
        delayMsOf op = 0 ∧ busyWaitMaxMicros op = 0) := by
  refine ⟨?_, rfl, rfl, ?_⟩
  · unfold gatedRun
    rw [if_neg (by omega)]
  · intro op hA hB
    cases op <;> simp_all [delayMsOf, busyWaitMaxMicros]

/-- Witness for the amended C8 at a concrete skipped tick. -/
theorem C8_gating_and_blocking_witness :
    10 - 5 < 200
    ∧ gatedRun 10 5 200 (fun s => s) initialSession = (5, initialSession)
    ∧ delayMsOf LoopOp.showMsg = 900
    ∧ busyWaitMaxMicros LoopOp.readUltra = 30012 := by
  have h := C8_gating_and_blocking 10 5 200 (fun s => s) initialSession
    (by decide)
  exact ⟨by decide, h.1, h.2.1, h.2.2.1⟩

/-- Claim C9: a SET command whose six integers violate the validated
ranges is answered with the invalid-date error, never reaches an
rtcAdjust request, and the serial handler never mutates the session. -/
theorem C9_set_command_validation (rtcOk : Bool)
    (y mo d h mi sec : Int) (s : Session) (cmd : String) (args : List Int)
    (hbad : validSet y mo d h mi sec = false) :
    (processSerialCommand rtcOk "SET" [y, mo, d, h, mi, sec] s).2
        = SerialAction.invalidDateTime
    ∧ (∀ yy mm dd hh mn ss : Int,
        (processSerialCommand rtcOk "SET" [y, mo, d, h, mi, sec] s).2
          ≠ SerialAction.rtcAdjust yy mm dd hh mn ss)
    ∧ (processSerialCommand rtcOk cmd args s).1 = s := by
  have hmain : (processSerialCommand rtcOk "SET" [y, mo, d, h, mi, sec] s).2
      = SerialAction.invalidDateTime := by
    simp [processSerialCommand, processSet, hbad]
  refine ⟨hmain, ?_, rfl⟩
  intro yy mm dd hh mn ss
  rw [hmain]
  simp

/-- Witness for C9 on the malformed command SET 1999 13 40 25 61 61. -/
theorem C9_set_command_validation_witness :
    validSet 1999 13 40 25 61 61 = false
    ∧ (processSerialCommand true "SET" [1999, 13, 40, 25, 61, 61]
        initialSession).2 = SerialAction.invalidDateTime
    ∧ (processSerialCommand true "SET" [1999, 13, 40, 25, 61, 61]
        initialSession).1 = initialSession := by
  have h := C9_set_command_validation true 1999 13 40 25 61 61
    initialSession "SET" [1999, 13, 40, 25, 61, 61] (by decide)
  exact ⟨by decide, h.1, h.2.2⟩

/-- Claim C10: no input sequence from power-on ever reaches the ABORTED
state value; cancelling a countdown with a short press goes directly to
IDLE. -/
theorem C10_aborted_unreachable (inputs : List Input) (s : Session) :
    (runInputs inputs).state ≠ State.ABORTED
    ∧ (s.state = State.COUNTDOWN →
        (onEncoderShortPress s).state = State.IDLE) := by
  refine ⟨(inv_run inputs).2.2, ?_⟩
  intro hs
  simp [onEncoderShortPress, hs]

/-- Witness for C10 on a concrete run and a concrete cancellation. -/
theorem C10_aborted_unreachable_witness :
    (runInputs [Input.btn false 0]).state ≠ State.ABORTED
    ∧ (({ initialSession with state := State.COUNTDOWN } : Session).state
          = State.COUNTDOWN →
        (onEncoderShortPress
          { initialSession with state := State.COUNTDOWN }).state
          = State.IDLE) :=
  C10_aborted_unreachable [Input.btn false 0]
    { initialSession with state := State.COUNTDOWN }

end SmartTable
